import Mathlib

/-!
Verification of the nvidia-orchestrator desired-state reconciliation core.

The definitions below are a shallow embedding of the Python source:

* `src/nvidia_orchestrator/core/container_manager.py` — container summaries,
  label lookup, `ensure_singleton_for_image`, `stop_container`,
  `delete_container`, `register_desired_state`;
* `src/nvidia_orchestrator/monitoring/health_monitor.py` — the `_status`
  health classifier, `ContainerStateTracker` and the state-transition part of
  `sample_once`;
* `src/nvidia_orchestrator/api/app.py` — the status computation of the
  `instance_health` endpoint;
* `postgres_store.py` — `upsert_desired` (keyed upsert into the
  `desired_images` table, modelled as an association list).

The Docker daemon is modelled as an explicit list of containers; runtime
calls that can fail (create, stop, remove) take explicit outcome oracles so
that every exception path of the Python code is represented.  Requests the
code issues to the runtime are recorded in an `RtAction` trace so that theorems
can speak about which calls a code path performs.
-/

/-- One container as the Docker daemon knows it.  The fields are the ones the
orchestrator reads: `id`, `name`, `status` (the Docker status string, for
example "running" or "exited"), the value of the "managed-by" label
(`container_manager.py`, `LABEL_KEY`), and the `Created` attribute used in
summaries. -/
structure DockerContainer where
  id : String
  name : String
  status : String
  label : Option String
  createdAt : String
  deriving Repr, DecidableEq

/-- The summary dict built by `ContainerManager._summarize_container`
(`container_manager.py` lines 202-238), restricted to the fields the claims
touch: `id`, `name`, `state` (copied from the Docker status) and
`created_at`. -/
structure Summary where
  id : String
  name : String
  state : String
  created_at : String
  deriving Repr, DecidableEq

/-- Embedding of `_summarize_container`: `id := c.id`, `name := c.name`,
`state := c.status`, `created_at := attrs["Created"]`. -/
def summarize (c : DockerContainer) : Summary :=
  { id := c.id, name := c.name, state := c.status, created_at := c.createdAt }

/-- Embedding of `ContainerManager._find_by_label_value`
(`container_manager.py` lines 143-153): keep, in listing order, the
containers whose "managed-by" label equals `value`. -/
def findByLabelValue (cs : List DockerContainer) (value : String) : List DockerContainer :=
  cs.filter (fun c => decide (c.label = some value))

/-- Embedding of `ContainerManager.list_instances_for_image`
(`container_manager.py` lines 359-361): summaries of the containers tagged
with the image. -/
def list_instances_for_image (cs : List DockerContainer) (image : String) : List Summary :=
  (findByLabelValue cs image).map summarize

/-! ## Health classification -/

/-- One guard of the classifier, `x is not None and x >= t` in
`health_monitor.py` lines 106-109.  `none` (Python `None`) never trips a
threshold. -/
def threshold_hit (x : Option ℚ) (t : ℚ) : Bool :=
  match x with
  | none => false
  | some v => decide (t ≤ v)

/-- Embedding of `_status` (`health_monitor.py` lines 103-110): not running
gives "stopped"; cpu or mem at or above 95 gives "critical"; at or above 85
gives "warning"; otherwise "healthy". -/
def _status (server_running : Bool) (cpu mem : Option ℚ) : String :=
  if !server_running then "stopped"
  else if threshold_hit cpu 95 || threshold_hit mem 95 then "critical"
  else if threshold_hit cpu 85 || threshold_hit mem 85 then "warning"
  else "healthy"

/-- Embedding of the status computation of the `instance_health` endpoint
(`api/app.py` lines 680-687).  `cpu_p` and `mem_p` are the values after the
`_calc_cpu_percent(stats) or 0.0` defaulting on lines 670-671, so they are
plain rationals here. -/
def instance_health_status (running : Bool) (cpu_p mem_p : ℚ) : String :=
  if !running then "stopped"
  else if cpu_p ≥ 90 ∨ mem_p ≥ 90 then "critical"
  else if cpu_p ≥ 75 ∨ mem_p ≥ 75 then "warning"
  else "healthy"

/-- Severity ranking used to state monotonicity of the classifier:
healthy < warning < critical.  "stopped" is ranked above everything; it can
only appear when the instance is not running. -/
def severity : String → Nat
  | "healthy" => 0
  | "warning" => 1
  | "critical" => 2
  | "stopped" => 3
  | _ => 0

/-! ## State transition tracker (`health_monitor.py` lines 18-52, 169-237)

The Python tracker stores a dict `container_id -> state`; it is modelled as
an association list with at most the usual map semantics (`get` finds the
first binding, `update` replaces the binding for the key). -/

/-- Embedding of `ContainerStateTracker`: the `_states_in_memory` dict. -/
structure Tracker where
  states : List (String × String)
  deriving Repr, DecidableEq

/-- Embedding of `ContainerStateTracker.get_previous_state`
(`health_monitor.py` lines 24-26). -/
def Tracker.get (t : Tracker) (cid : String) : Option String :=
  (t.states.find? (fun p => decide (p.1 = cid))).map Prod.snd

/-- Embedding of `ContainerStateTracker.update_state` (`health_monitor.py`
lines 28-32): store `new_state` under `container_id`, replacing any previous
binding. -/
def Tracker.update (t : Tracker) (cid new_state : String) : Tracker :=
  ⟨(cid, new_state) :: t.states.filter (fun p => decide (p.1 ≠ cid))⟩

/-- The key set of the tracker map. -/
def Tracker.keys (t : Tracker) : List String :=
  t.states.map Prod.fst

/-- Embedding of `ContainerStateTracker.cleanup_removed_containers`
(`health_monitor.py` lines 34-42): delete every stored id that is not in the
current listing; equivalently keep exactly the bindings whose id is
current. -/
def cleanup_removed_containers (t : Tracker) (current_container_ids : List String) : Tracker :=
  ⟨t.states.filter (fun p => decide (p.1 ∈ current_container_ids))⟩

/-- The observed state string computed in `sample_once`
(`health_monitor.py` line 179): "running" if the container is running, else
"stopped". -/
def observedState (running : Bool) : String :=
  if running then "running" else "stopped"

/-- The lifecycle event kind recorded on a transition (`health_monitor.py`
line 186): "start" when the new state is "running", else "stop". -/
def mappedEvent (running : Bool) : String :=
  if running then "start" else "stop"

/-- The per-instance transition step of `sample_once` (`health_monitor.py`
lines 178-197): if the stored state differs from the observed one (also when
no entry is stored), update the map and emit exactly one transition event
`(container_id, mapped_event)`; otherwise do nothing. -/
def trackStep (t : Tracker) (cid : String) (running : Bool) :
    Tracker × List (String × String) :=
  if t.get cid ≠ some (observedState running) then
    (t.update cid (observedState running), [(cid, mappedEvent running)])
  else
    (t, [])

/-- The tracker-facing behaviour of one `sample_once` poll cycle
(`health_monitor.py` lines 169-237): apply the transition step to every
instance of the runtime listing in order, collecting the emitted events, then
purge stale entries with `cleanup_removed_containers` (line 237).  The parts
of `sample_once` that do not touch the tracker (stats collection and health
snapshot writes) are omitted. -/
def sample_once_tracking (t : Tracker) (instances : List Summary) :
    Tracker × List (String × String) :=
  let folded := instances.foldl
    (fun acc s =>
      let step := trackStep acc.1 s.id (decide (s.state = "running"))
      (step.1, acc.2 ++ step.2))
    (t, [])
  (cleanup_removed_containers folded.1 (instances.map (fun s => s.id)), folded.2)

/-! ## Single-instance runtime operations (`container_manager.py`) -/

/-- A runtime call issued by the orchestrator, as recorded in the traces of
the embedded operations.  `createOk`/`createErr` are the two outcomes of a
`create_container` attempt; `stopCall`, `startCall` and `removeCall` record
stop/start/remove requests; `stopIndexErr` records the caught `IndexError`
of the scale-down loop when it indexes past the running list. -/
inductive RtAction where
  | createOk (image cid : String)
  | createErr (image err : String)
  | stopCall (cid : String)
  | startCall (cid : String)
  | removeCall (cid : String)
  | stopIndexErr
  deriving Repr, DecidableEq

/-- The structured result dict of `stop_container` / `delete_container`
(`container_manager.py` lines 363-417): `ok`, an optional `error` string and
an optional `id` key (the `id` key is present exactly in the not-found
result). -/
structure OpResult where
  ok : Bool
  error : Option String
  id : Option String
  deriving Repr, DecidableEq

/-- Embedding of `ContainerManager._get_by_name_or_id`
(`container_manager.py` lines 155-162): first a direct lookup by id or name;
if that raises `NotFound`, a scan over all containers matching exact name or
id prefix; `none` models the re-raised `NotFound`. -/
def get_by_name_or_id (cs : List DockerContainer) (name_or_id : String) :
    Option DockerContainer :=
  match cs.find? (fun c => decide (c.id = name_or_id ∨ c.name = name_or_id)) with
  | some c => some c
  | none => cs.find? (fun c => decide (c.name = name_or_id) || c.id.startsWith name_or_id)

/-- Embedding of `ContainerManager.stop_container` (`container_manager.py`
lines 391-417).  `apiErr = some m` models a runtime failure of the `c.stop`
call with message `m` (the `APIError` / generic exception branches); every
exception is caught, so the function always returns a structured result.
On success the container status becomes "exited". -/
def stop_container (cs : List DockerContainer) (name_or_id : String)
    (apiErr : Option String) : OpResult × List DockerContainer :=
  match get_by_name_or_id cs name_or_id with
  | none => ({ ok := false, error := some "not-found", id := some name_or_id }, cs)
  | some c =>
    match apiErr with
    | some m => ({ ok := false, error := some m, id := none }, cs)
    | none =>
      ({ ok := true, error := none, id := none },
       cs.map (fun d => if d.id = c.id then { d with status := "exited" } else d))

/-- Embedding of `ContainerManager.delete_container` (`container_manager.py`
lines 363-389), with the same oracle convention as `stop_container`.  On
success the container is removed from the runtime. -/
def delete_container (cs : List DockerContainer) (name_or_id : String)
    (force : Bool) (apiErr : Option String) : OpResult × List DockerContainer :=
  match get_by_name_or_id cs name_or_id with
  | none => ({ ok := false, error := some "not-found", id := some name_or_id }, cs)
  | some c =>
    match apiErr with
    | some m => ({ ok := false, error := some m, id := none }, cs)
    | none =>
      ({ ok := true, error := none, id := none },
       cs.filter (fun d => decide (d.id ≠ c.id)))

/-! ## ensure_singleton_for_image (`container_manager.py` lines 330-342)

The create path (`_run_new_container`) talks to the runtime and may raise; it
is modelled by the `runNew` oracle: `Except.ok c` means the runtime created
container `c`, `Except.error e` means the creation raised with message `e`.
In `ensure_singleton_for_image` such an exception propagates to the caller,
hence the `Except` result type. -/

/-- Embedding of `ContainerManager.ensure_singleton_for_image`: if any tagged
container exists, return the summary of a running one if there is one, else of
the first found, touching neither the runtime state nor issuing any call;
only when none exists run a new container. -/
def ensure_singleton_for_image (cs : List DockerContainer) (image : String)
    (runNew : Except String DockerContainer) :
    Except String (Summary × List DockerContainer × List RtAction) :=
  match findByLabelValue cs image with
  | [] =>
    match runNew with
    | .error e => .error e
    | .ok c => .ok (summarize c, cs ++ [c], [RtAction.createOk image c.id])
  | e :: es =>
    let pref := ((e :: es).find? (fun c => decide (c.status = "running"))).getD e
    .ok (summarize pref, cs, [])

/-! ## Desired-state store (`postgres_store.py`) -/

/-- One row of the `desired_images` table (`postgres_store.py` lines 27-37):
the image key, the two replica bounds, and the JSON-serialised resources, env
and ports payloads. -/
structure DesiredRow where
  image : String
  min_replicas : Int
  max_replicas : Int
  resources : String
  env : String
  ports : String
  deriving Repr, DecidableEq

/-- The store: the `enabled` flag set at connect time and the
`desired_images` table, modelled as an association list keyed by image. -/
structure Store where
  enabled : Bool
  desired : List (String × DesiredRow)
  deriving Repr, DecidableEq

/-- Embedding of `PostgresStore.upsert_desired` (`postgres_store.py` lines
57-77): a no-op when the store is disabled, otherwise an unconditional keyed
upsert of exactly the given row — no validation of the bounds happens here or
anywhere upstream. -/
def upsert_desired (st : Store) (image : String) (doc : DesiredRow) : Store :=
  if st.enabled then
    { st with desired := (image, doc) :: st.desired.filter (fun p => decide (p.1 ≠ image)) }
  else st

/-- Lookup in the `desired_images` table. -/
def lookup_desired (st : Store) (image : String) : Option DesiredRow :=
  (st.desired.find? (fun p => decide (p.1 = image))).map Prod.snd

/-! ## register_desired_state (`container_manager.py` lines 447-504) -/

/-- The dict returned by `register_desired_state` (lines 498-504).  Both
counts are computed from `current_instances`, the listing snapshot taken on
line 474 before any create or stop action runs. -/
structure RegisterResult where
  image : String
  min_replicas : Int
  max_replicas : Int
  current_running : Nat
  total_instances : Nat
  deriving Repr, DecidableEq

/-- Everything a `register_desired_state` call produces: the returned dict,
the store and runtime after the call, and the trace of runtime calls it
issued. -/
structure RegisterOutcome where
  result : RegisterResult
  store : Store
  containers : List DockerContainer
  actions : List RtAction
  deriving Repr, DecidableEq

/-- The snapshot `current_instances` of line 474. -/
def currentFor (cs : List DockerContainer) (image : String) : List Summary :=
  list_instances_for_image cs image

/-- The running instances of the snapshot (lines 475 and 491). -/
def runningFor (cs : List DockerContainer) (image : String) : List Summary :=
  (currentFor cs image).filter (fun s => decide (s.state = "running"))

/-- `running_count` of line 475. -/
def runningCountFor (cs : List DockerContainer) (image : String) : Nat :=
  (runningFor cs image).length

/-- The trace entry of one creation attempt of the scale-up loop (lines
481-485): the attempt is wrapped in its own try/except, so a raising
`create_container` turns into a logged error and the loop continues. -/
def createAttempt (image : String) (outcome : Except String DockerContainer) : RtAction :=
  match outcome with
  | .ok c => RtAction.createOk image c.id
  | .error e => RtAction.createErr image e

/-- The scale-up loop (lines 477-485): `needed` independent creation
attempts; attempt `k` consumes `createO k`.  A successful attempt appends the
new container to the runtime. -/
def scaleUpLoop (image : String) (createO : Nat → Except String DockerContainer)
    (needed : Nat) (cs : List DockerContainer) :
    List DockerContainer × List RtAction :=
  (List.range needed).foldl
    (fun acc k =>
      match createO k with
      | .ok c => (acc.1 ++ [c], acc.2 ++ [RtAction.createOk image c.id])
      | .error e => (acc.1, acc.2 ++ [RtAction.createErr image e]))
    (cs, [])

/-- The scale-down loop (lines 487-496): for `i` in `range(excess)` stop
`running_instances[i]`, each iteration wrapped in its own try/except.  The
indexing happens inside the try, so an index past the end of
`running_instances` is a caught `IndexError` (possible only when
`max_replicas` is negative).  Note the loop only ever stops instances taken
from the pre-action snapshot, in listing order, and never removes any. -/
def scaleDownLoop (stopO : Nat → Option String) (running_instances : List Summary)
    (excess : Nat) (cs : List DockerContainer) :
    List DockerContainer × List RtAction :=
  (List.range excess).foldl
    (fun acc k =>
      match running_instances[k]? with
      | some s =>
        let stepped := stop_container acc.1 s.id (stopO k)
        (stepped.2, acc.2 ++ [RtAction.stopCall s.id])
      | none => (acc.1, acc.2 ++ [RtAction.stopIndexErr]))
    (cs, [])

/-- Embedding of `ContainerManager.register_desired_state`
(`container_manager.py` lines 447-504).  Control flow:

1. when the store is enabled, upsert the spec as given (lines 461-471);
2. take the listing snapshot and count its running instances (474-475);
3. if `running_count < min_replicas`, run the scale-up loop (477-485);
4. else if `running_count > max_replicas`, run the scale-down loop (487-496);
5. return the result dict computed from the pre-action snapshot (498-504).

`createO k` / `stopO k` are the outcome oracles of the k-th create / stop
runtime call.  Every per-attempt exception is caught by the source, so the
call as a whole returns normally for every oracle. -/
def register_desired_state (st : Store) (cs : List DockerContainer) (image : String)
    (min_replicas max_replicas : Int) (resources env ports : String)
    (createO : Nat → Except String DockerContainer)
    (stopO : Nat → Option String) : RegisterOutcome :=
  let st1 := if st.enabled then
      upsert_desired st image
        { image := image, min_replicas := min_replicas, max_replicas := max_replicas,
          resources := resources, env := env, ports := ports }
    else st
  let scaled : List DockerContainer × List RtAction :=
    if (runningCountFor cs image : Int) < min_replicas then
      scaleUpLoop image createO (min_replicas - (runningCountFor cs image : Int)).toNat cs
    else if (runningCountFor cs image : Int) > max_replicas then
      scaleDownLoop stopO (runningFor cs image)
        ((runningCountFor cs image : Int) - max_replicas).toNat cs
    else (cs, [])
  { result :=
      { image := image, min_replicas := min_replicas, max_replicas := max_replicas,
        current_running := runningCountFor cs image,
        total_instances := (currentFor cs image).length },
    store := st1, containers := scaled.1, actions := scaled.2 }

/-! ## Shared concrete fixtures and oracles used by the claim theorems -/

/-- A creation oracle on which every attempt raises. -/
def createBoom : Nat → Except String DockerContainer :=
  fun _ => Except.error "boom"

/-- A creation oracle on which every attempt succeeds with a fresh running
container. -/
def createFresh : Nat → Except String DockerContainer :=
  fun k => Except.ok { id := "new" ++ toString k, name := "n" ++ toString k,
                       status := "running", label := some "img", createdAt := "t" }

/-- A stop oracle on which no runtime stop call fails. -/
def noStopErr : Nat → Option String :=
  fun _ => none

/-- Two running containers of the group "img"; the one listed first
(`idNew`) has the strictly later creation timestamp, as in an actual Docker
listing (newest first). -/
def csC2 : List DockerContainer :=
  [ { id := "idNew", name := "n2", status := "running", label := some "img",
      createdAt := "2024-01-02T00:00:00Z" },
    { id := "idOld", name := "n1", status := "running", label := some "img",
      createdAt := "2024-01-01T00:00:00Z" } ]

/-- A single stopped (exited) container of the group "img". -/
def csC6 : List DockerContainer :=
  [ { id := "cid1", name := "n1", status := "exited", label := some "img",
      createdAt := "t0" } ]

/-- A store holding a prior valid spec (1, 1) for the group "img". -/
def stC5 : Store :=
  ⟨true, [("img", { image := "img", min_replicas := 1, max_replicas := 1,
                    resources := "{}", env := "{}", ports := "{}" })]⟩

/-! ## Claim C4 -/

/-- C4, counterexample.  The claim asserts that every place the program
exposes a health status uses the inclusive thresholds 95 (critical) and 85
(warning), and in particular that cpu=94.9, mem=0, running=true classifies as
"warning".  The monitoring classifier `_status` does, but the public
`instance_health` endpoint computes "critical" for the same reading, because
its thresholds are 90 and 75 (`api/app.py` lines 680-687). -/
theorem C4_counterexample :
    _status true (some (949 / 10)) (some 0) = "warning" ∧
    instance_health_status true (949 / 10) 0 = "critical" := by
  constructor
  · have h95 : ¬ (95 : ℚ) ≤ 949 / 10 := by norm_num
    have h85 : (85 : ℚ) ≤ 949 / 10 := by norm_num
    simp [_status, threshold_hit, h95, h85]
  · have h90 : (90 : ℚ) ≤ 949 / 10 := by norm_num
    simp [instance_health_status]
    norm_num

/-- C4, amended: the monitoring classifier `_status` maps not-running to
"stopped" and otherwise uses the inclusive thresholds 95/85, treating an
absent reading exactly like 0.0; the `instance_health` endpoint maps
not-running to "stopped" and otherwise uses the inclusive thresholds 90/75
(its inputs are already defaulted to 0.0 before the comparison).  So
cpu=94.9, mem=0, running=true is "warning" in the monitor but "critical" at
the endpoint. -/
theorem C4_amended (cpu mem : ℚ) :
    _status false (some cpu) (some mem) = "stopped" ∧
    _status true (some cpu) (some mem) =
      (if 95 ≤ cpu ∨ 95 ≤ mem then "critical"
       else if 85 ≤ cpu ∨ 85 ≤ mem then "warning" else "healthy") ∧
    instance_health_status false cpu mem = "stopped" ∧
    instance_health_status true cpu mem =
      (if 90 ≤ cpu ∨ 90 ≤ mem then "critical"
       else if 75 ≤ cpu ∨ 75 ≤ mem then "warning" else "healthy") ∧
    _status true none (some mem) = _status true (some 0) (some mem) ∧
    _status true (some cpu) none = _status true (some cpu) (some 0) := by
  refine ⟨rfl, ?_, rfl, rfl, ?_, ?_⟩
  · simp [_status, threshold_hit]
  · have h95 : ¬ (95 : ℚ) ≤ 0 := by norm_num
    have h85 : ¬ (85 : ℚ) ≤ 0 := by norm_num
    simp [_status, threshold_hit, h95, h85]
  · have h95 : ¬ (95 : ℚ) ≤ 0 := by norm_num
    have h85 : ¬ (85 : ℚ) ≤ 0 := by norm_num
    simp [_status, threshold_hit, h95, h85]

/-! ## Claim C10 -/

/-- C10: the monitoring health classifier is monotone in resource usage.
With running fixed to true, raising cpu and mem can only keep or raise the
severity of the computed status under healthy < warning < critical. -/
theorem C10_status_monotone (cpu1 cpu2 mem1 mem2 : ℚ)
    (h1 : cpu1 ≤ cpu2) (h2 : mem1 ≤ mem2) :
    severity (_status true (some cpu1) (some mem1)) ≤
      severity (_status true (some cpu2) (some mem2)) := by
  have mono95 : (95 ≤ cpu1 ∨ 95 ≤ mem1) → (95 ≤ cpu2 ∨ 95 ≤ mem2) := by
    rintro (h | h)
    · exact Or.inl (le_trans h h1)
    · exact Or.inr (le_trans h h2)
  have mono85 : (85 ≤ cpu1 ∨ 85 ≤ mem1) → (85 ≤ cpu2 ∨ 85 ≤ mem2) := by
    rintro (h | h)
    · exact Or.inl (le_trans h h1)
    · exact Or.inr (le_trans h h2)
  simp only [_status, threshold_hit, Bool.not_true, Bool.false_eq_true, if_false,
    Bool.or_eq_true, decide_eq_true_eq]
  split_ifs <;> simp [severity] <;>
    first
    | exact absurd (mono95 (by assumption)) (by assumption)
    | exact absurd (mono85 (by assumption)) (by assumption)

/-- C10, witness: cpu 90 against cpu 96 at mem 0. -/
theorem C10_witness :
    severity (_status true (some 90) (some 0)) ≤
      severity (_status true (some 96) (some 0)) :=
  C10_status_monotone 90 96 0 0 (by decide) (by decide)

/-! ## Claim C7 -/

/-- After an update, the tracker stores the new state under the id. -/
theorem tracker_get_update (t : Tracker) (cid s : String) :
    (t.update cid s).get cid = some s := by
  simp [Tracker.update, Tracker.get, List.find?_cons]

/-- C7: the tracker treats an instance as a transition exactly when the
observed state differs from the stored one or no entry exists; a transition
updates the map and emits exactly one event, a non-transition emits none, so
feeding the same observed state twice in a row to a fresh entry produces one
event in total. -/
theorem C7_transition_dedup (t : Tracker) (cid : String) (running : Bool)
    (h : t.get cid = none) :
    (trackStep t cid running).2.length = 1 ∧
    (trackStep (trackStep t cid running).1 cid running).2.length = 0 ∧
    (∀ t' : Tracker,
      (trackStep t' cid running).2.length =
        (if t'.get cid = some (observedState running) then 0 else 1) ∧
      (trackStep t' cid running).1.get cid = some (observedState running)) := by
  refine ⟨?_, ?_, ?_⟩
  · simp [trackStep, h]
  · simp [trackStep, h, tracker_get_update]
  · intro t'
    by_cases hc : t'.get cid = some (observedState running)
    · simp [trackStep, hc]
    · simp [trackStep, hc, tracker_get_update]

/-- C7, witness: an empty tracker fed ("a", running) twice. -/
theorem C7_witness :
    (trackStep ⟨[]⟩ "a" true).2.length = 1 ∧
    (trackStep (trackStep ⟨[]⟩ "a" true).1 "a" true).2.length = 0 ∧
    (∀ t' : Tracker,
      (trackStep t' "a" true).2.length =
        (if t'.get "a" = some (observedState true) then 0 else 1) ∧
      (trackStep t' "a" true).1.get "a" = some (observedState true)) :=
  C7_transition_dedup ⟨[]⟩ "a" true rfl

/-! ## Claim C8 -/

/-- C8: after a completed poll cycle, every id still held by the tracker is
an id of the runtime listing obtained during that cycle — stale entries are
purged, so the tracker map is bounded by the current listing. -/
theorem C8_tracker_subset (t : Tracker) (instances : List Summary) (cid : String)
    (h : cid ∈ (sample_once_tracking t instances).1.keys) :
    cid ∈ instances.map (fun s => s.id) := by
  simp only [sample_once_tracking, cleanup_removed_containers, Tracker.keys] at h
  rw [List.mem_map] at h
  obtain ⟨p, hp, hpe⟩ := h
  exact hpe ▸ of_decide_eq_true (List.mem_filter.mp hp).2

/-- C8, witness: a tracker holding ids "a" and "gone" polled against a
listing that only contains "a". -/
theorem C8_witness :
    "a" ∈
      ([⟨"a", "na", "running", "t"⟩] : List Summary).map (fun s => s.id) :=
  C8_tracker_subset ⟨[("gone", "running"), ("a", "stopped")]⟩
    [⟨"a", "na", "running", "t"⟩] "a" (by decide)

/-! ## Claim C9 -/

/-- C9: for an identifier the runtime does not know, `stop_container` and
`delete_container` return the structured not-found result instead of raising
(ok = false, error = "not-found", with the offending id echoed back), and
that result is distinct from the result of any other runtime failure, whose
error field carries the underlying message and which does not echo an id. -/
theorem C9_not_found_result (cs : List DockerContainer) (x : String)
    (so do_ : Option String) (force : Bool)
    (h : get_by_name_or_id cs x = none) :
    (stop_container cs x so).1 =
      { ok := false, error := some "not-found", id := some x } ∧
    (delete_container cs x force do_).1 =
      { ok := false, error := some "not-found", id := some x } ∧
    (∀ (cs' : List DockerContainer) (y m : String) (c : DockerContainer) (f : Bool),
      get_by_name_or_id cs' y = some c →
        (stop_container cs' y (some m)).1 = { ok := false, error := some m, id := none } ∧
        (stop_container cs' y (some m)).1 ≠ (stop_container cs x so).1 ∧
        (delete_container cs' y f (some m)).1 = { ok := false, error := some m, id := none } ∧
        (delete_container cs' y f (some m)).1 ≠ (delete_container cs x force do_).1) := by
  refine ⟨?_, ?_, ?_⟩
  · simp [stop_container, h]
  · simp [delete_container, h]
  · intro cs' y m c f hc
    refine ⟨?_, ?_, ?_, ?_⟩ <;> simp [stop_container, delete_container, h, hc]

/-- C9, witness: the empty runtime knows no container "ghost". -/
theorem C9_witness :
    (stop_container [] "ghost" none).1 =
      { ok := false, error := some "not-found", id := some "ghost" } :=
  (C9_not_found_result [] "ghost" none none false rfl).1

/-! ## Claim C3 -/

/-- C3: when tagged instances exist, `ensure_singleton_for_image` creates
nothing (empty runtime-call trace, runtime state unchanged) and returns the
summary of a running instance if any, else of the first found; hence a
second call with the same arguments returns the same instance id and the
number of instances of the group is unchanged. -/
theorem C3_singleton_idempotent (cs : List DockerContainer) (image : String)
    (rn rn' : Except String DockerContainer) (c : DockerContainer)
    (rest : List DockerContainer)
    (h : findByLabelValue cs image = c :: rest) :
    ensure_singleton_for_image cs image rn =
      Except.ok
        (summarize (((c :: rest).find? (fun d => decide (d.status = "running"))).getD c),
         cs, ([] : List RtAction)) ∧
    ensure_singleton_for_image cs image rn = ensure_singleton_for_image cs image rn' := by
  unfold ensure_singleton_for_image
  rw [h]
  exact ⟨rfl, rfl⟩

/-- C3, witness: a runtime holding exactly one (running) instance of the
group. -/
theorem C3_witness :
    ensure_singleton_for_image
        [⟨"only", "n1", "running", some "img", "t0"⟩] "img" (Except.error "unused") =
      Except.ok (⟨"only", "n1", "running", "t0"⟩,
        [⟨"only", "n1", "running", some "img", "t0"⟩], ([] : List RtAction)) :=
  ((C3_singleton_idempotent
      [⟨"only", "n1", "running", some "img", "t0"⟩] "img"
      (Except.error "unused") (Except.error "unused")
      ⟨"only", "n1", "running", some "img", "t0"⟩ [] rfl).1).trans (by rfl)

/-! ## Claim C6 -/

/-- C6, counterexample.  The claim asserts that when tagged instances exist
but none is running and the lifecycle intent requires Running,
`ensure_singleton_for_image` starts the selected instance and waits (default
5 s) for port bindings.  On a runtime holding exactly one exited instance of
the group, the call returns that instance's summary still in state "exited",
leaves the runtime unchanged and issues no runtime call at all — in
particular no start call and no wait happen. -/
theorem C6_counterexample :
    ensure_singleton_for_image csC6 "img" (Except.error "unused") =
      Except.ok (⟨"cid1", "n1", "exited", "t0"⟩, csC6, ([] : List RtAction)) := by
  rfl

/-- C6, amended: when tagged instances exist and none is running,
`ensure_singleton_for_image` returns the summary of the first found instance
as it is, without starting it and without any bounded wait: the runtime state
is unchanged and the runtime-call trace is empty. -/
theorem C6_amended (cs : List DockerContainer) (image : String)
    (rn : Except String DockerContainer) (c : DockerContainer)
    (rest : List DockerContainer)
    (h : findByLabelValue cs image = c :: rest)
    (hnr : ∀ d ∈ c :: rest, ¬ d.status = "running") :
    ensure_singleton_for_image cs image rn =
      Except.ok (summarize c, cs, ([] : List RtAction)) := by
  unfold ensure_singleton_for_image
  rw [h]
  have hfind : (c :: rest).find? (fun d => decide (d.status = "running")) = none := by
    rw [List.find?_eq_none]
    intro x hx
    simpa using hnr x hx
  simp [hfind]

/-- C6, witness: the single exited instance of `csC6`. -/
theorem C6_amended_witness :
    ensure_singleton_for_image csC6 "img" (Except.ok ⟨"x", "x", "running", none, "t"⟩) =
      Except.ok (summarize ⟨"cid1", "n1", "exited", some "img", "t0"⟩, csC6,
        ([] : List RtAction)) :=
  C6_amended csC6 "img" (Except.ok ⟨"x", "x", "running", none, "t"⟩)
    ⟨"cid1", "n1", "exited", some "img", "t0"⟩ [] (by rfl) (by decide)

/-! ## Loop lemmas for `register_desired_state` -/

/-- The trace of the scale-up loop over a general accumulator: attempt `k`
contributes exactly `createAttempt image (createO k)`, independently of the
outcomes of the other attempts. -/
theorem scaleUp_trace (image : String) (createO : Nat → Except String DockerContainer) :
    ∀ (n : Nat) (cs : List DockerContainer) (acts : List RtAction),
    ((List.range n).foldl
      (fun acc k =>
        match createO k with
        | .ok c => (acc.1 ++ [c], acc.2 ++ [RtAction.createOk image c.id])
        | .error e => (acc.1, acc.2 ++ [RtAction.createErr image e]))
      (cs, acts)).2 = acts ++ (List.range n).map (fun k => createAttempt image (createO k)) := by
  intro n
  induction n with
  | zero => intro cs acts; simp
  | succ n ih =>
    intro cs acts
    rw [List.range_succ, List.foldl_append, List.map_append]
    simp only [List.foldl_cons, List.foldl_nil, List.map_cons, List.map_nil]
    cases ho : createO n with
    | ok c =>
      simp only [ho, ih cs acts, createAttempt]
      simp [List.append_assoc]
    | error e =>
      simp only [ho, ih cs acts, createAttempt]
      simp [List.append_assoc]

/-- The trace of `scaleUpLoop`. -/
theorem scaleUpLoop_acts (image : String) (createO : Nat → Except String DockerContainer)
    (n : Nat) (cs : List DockerContainer) :
    (scaleUpLoop image createO n cs).2 =
      (List.range n).map (fun k => createAttempt image (createO k)) := by
  unfold scaleUpLoop
  rw [scaleUp_trace]
  simp

/-- The trace of the scale-down loop over a general accumulator: when the
excess count does not exceed the running list, iteration `k` stops
`running_instances[k]`, so the trace is the stop calls of the first `n`
running instances in listing order — and nothing else, in particular no
remove call. -/
theorem scaleDown_trace (stopO : Nat → Option String) (l : List Summary) :
    ∀ (n : Nat), n ≤ l.length →
    ∀ (cs : List DockerContainer) (acts : List RtAction),
    ((List.range n).foldl
      (fun acc k =>
        match l[k]? with
        | some s =>
          let stepped := stop_container acc.1 s.id (stopO k)
          (stepped.2, acc.2 ++ [RtAction.stopCall s.id])
        | none => (acc.1, acc.2 ++ [RtAction.stopIndexErr]))
      (cs, acts)).2 = acts ++ (l.take n).map (fun s => RtAction.stopCall s.id) := by
  intro n
  induction n with
  | zero => intro _ cs acts; simp
  | succ n ih =>
    intro hn cs acts
    have hlt : n < l.length := Nat.lt_of_lt_of_le (Nat.lt_succ_self n) hn
    rw [List.range_succ, List.foldl_append]
    simp only [List.foldl_cons, List.foldl_nil]
    rw [List.getElem?_eq_getElem hlt]
    simp only []
    rw [List.take_succ, List.map_append, List.getElem?_eq_getElem hlt]
    have ihn := ih (Nat.le_of_lt hlt) cs acts
    simp only [ihn]
    simp [List.append_assoc]

/-- The trace of `scaleDownLoop`. -/
theorem scaleDownLoop_acts (stopO : Nat → Option String) (l : List Summary)
    (n : Nat) (h : n ≤ l.length) (cs : List DockerContainer) :
    (scaleDownLoop stopO l n cs).2 = (l.take n).map (fun s => RtAction.stopCall s.id) := by
  unfold scaleDownLoop
  rw [scaleDown_trace stopO l n h]
  simp

/-! ## Claim C1 -/

/-- C1, counterexample.  The claim asserts that each creation attempt of a
reconcile pass is recorded as a separate action with its own ok/error in the
returned result.  The dict `register_desired_state` returns carries only the
bounds and counts computed from the pre-action snapshot (lines 498-504): on
a run whose single needed creation attempt raised, the returned result is
identical to the result of a run whose attempt succeeded, so no per-attempt
outcome is recorded in the returned result (failures are only logged). -/
theorem C1_counterexample :
    (register_desired_state ⟨false, []⟩ [] "img" 1 1 "{}" "{}" "{}"
        createBoom noStopErr).actions = [RtAction.createErr "img" "boom"] ∧
    (register_desired_state ⟨false, []⟩ [] "img" 1 1 "{}" "{}" "{}"
        createBoom noStopErr).result =
      (register_desired_state ⟨false, []⟩ [] "img" 1 1 "{}" "{}" "{}"
        createFresh noStopErr).result :=
  ⟨rfl, rfl⟩

/-- C1, amended: with r running instances and r < m = min_replicas, one
reconcile pass issues exactly m − r creation attempts; attempt k consumes
only its own outcome, so an exception in one attempt does not prevent the
remaining attempts, and the call itself returns normally for every
combination of outcomes.  Each attempt's outcome is logged, but it is not
recorded in the returned result: the result is the same for any two outcome
oracles. -/
theorem C1_amended (st : Store) (cs : List DockerContainer) (image : String)
    (minR maxR : Int) (res env ports : String)
    (o o' : Nat → Except String DockerContainer) (so : Nat → Option String)
    (h : (runningCountFor cs image : Int) < minR) :
    (register_desired_state st cs image minR maxR res env ports o so).actions =
      (List.range (minR - (runningCountFor cs image : Int)).toNat).map
        (fun k => createAttempt image (o k)) ∧
    (register_desired_state st cs image minR maxR res env ports o so).result =
      (register_desired_state st cs image minR maxR res env ports o' so).result := by
  constructor
  · simp only [register_desired_state]
    rw [if_pos h]
    exact scaleUpLoop_acts image o _ cs
  · rfl

/-- C1, witness: an empty runtime and min_replicas = 1 lead to one attempt,
here a failing one. -/
theorem C1_amended_witness :
    (register_desired_state ⟨false, []⟩ [] "img" 1 1 "" "" ""
        createBoom noStopErr).actions = [RtAction.createErr "img" "boom"] :=
  ((C1_amended ⟨false, []⟩ [] "img" 1 1 "" "" "" createBoom createFresh noStopErr
      (by decide)).1).trans (by rfl)

/-! ## Claim C2 -/

/-- C2, counterexample.  The claim asserts that scale-down selects the
oldest instances by creation time and stop-then-removes them.  In `csC2` the
instance listed first (`idNew`, created 2024-01-02) is strictly newer than
`idOld` (created 2024-01-01); with two running instances and
max_replicas = 1, the reconcile pass issues exactly one runtime call: a stop
of `idNew`, the newer instance — not of `idOld` as the claim requires — and
no remove call at all. -/
theorem C2_counterexample :
    ("2024-01-01T00:00:00Z").data < ("2024-01-02T00:00:00Z").data ∧
    (register_desired_state ⟨false, []⟩ csC2 "img" 1 1 "{}" "{}" "{}"
        createBoom noStopErr).actions = [RtAction.stopCall "idNew"] := by
  exact ⟨by decide, rfl⟩

/-- C2, amended: when running_count exceeds max_replicas ≥ 0 (and the
scale-up branch does not fire), the pass stops the first
running_count − max_replicas running instances in runtime listing order —
no ordering by creation time — and issues only stop calls, never a
remove. -/
theorem C2_amended (st : Store) (cs : List DockerContainer) (image : String)
    (minR maxR : Int) (res env ports : String)
    (o : Nat → Except String DockerContainer) (so : Nat → Option String)
    (h0 : ¬ (runningCountFor cs image : Int) < minR)
    (h1 : maxR < (runningCountFor cs image : Int))
    (h2 : 0 ≤ maxR) :
    (register_desired_state st cs image minR maxR res env ports o so).actions =
      ((runningFor cs image).take ((runningCountFor cs image : Int) - maxR).toNat).map
        (fun s => RtAction.stopCall s.id) := by
  simp only [register_desired_state]
  rw [if_neg h0, if_pos h1]
  have hlen : ((runningCountFor cs image : Int) - maxR).toNat ≤ (runningFor cs image).length := by
    unfold runningCountFor at h1 ⊢
    omega
  exact scaleDownLoop_acts so (runningFor cs image) _ hlen cs

/-- C2, witness: two running instances against max_replicas = 1 — the
instance stopped is the head of the listing, `idNew`. -/
theorem C2_amended_witness :
    (register_desired_state ⟨false, []⟩ csC2 "img" 0 1 "{}" "{}" "{}"
        createBoom noStopErr).actions = [RtAction.stopCall "idNew"] :=
  (C2_amended ⟨false, []⟩ csC2 "img" 0 1 "{}" "{}" "{}" createBoom noStopErr
      (by decide) (by decide) (by decide)).trans (by rfl)

/-! ## Claim C5 -/

/-- C5, counterexample.  The claim asserts that a spec with
min_replicas > max_replicas is rejected before any runtime call and the
previously stored valid spec is kept.  Registering (5, 2) over the stored
valid spec (1, 1) instead overwrites the stored row with (5, 2) — violating
min ≤ max in the store — and the pass proceeds to issue runtime calls (five
creation attempts). -/
theorem C5_counterexample :
    lookup_desired stC5 "img" =
      some { image := "img", min_replicas := 1, max_replicas := 1,
             resources := "{}", env := "{}", ports := "{}" } ∧
    lookup_desired (register_desired_state stC5 [] "img" 5 2 "{}" "{}" "{}"
        createBoom noStopErr).store "img" =
      some { image := "img", min_replicas := 5, max_replicas := 2,
             resources := "{}", env := "{}", ports := "{}" } ∧
    (2 : Int) < 5 ∧
    (register_desired_state stC5 [] "img" 5 2 "{}" "{}" "{}"
        createBoom noStopErr).actions ≠ [] := by
  refine ⟨rfl, rfl, by decide, by decide⟩

/-- C5, amended: `register_desired_state` performs no validation of the
bounds: whenever the store is enabled, the spec is upserted exactly as
given — for any min/max, including min > max — overwriting any previously
stored spec for the group, and reconciliation proceeds against the new
bounds. -/
theorem C5_amended (st : Store) (cs : List DockerContainer) (image : String)
    (minR maxR : Int) (res env ports : String)
    (o : Nat → Except String DockerContainer) (so : Nat → Option String)
    (h : st.enabled = true) :
    lookup_desired
        (register_desired_state st cs image minR maxR res env ports o so).store image =
      some { image := image, min_replicas := minR, max_replicas := maxR,
             resources := res, env := env, ports := ports } := by
  simp only [register_desired_state, h, if_true, upsert_desired, lookup_desired]
  simp [List.find?_cons]

/-- C5, witness: an enabled empty store accepts the invalid bounds (2, 1)
as given. -/
theorem C5_amended_witness :
    lookup_desired
        (register_desired_state ⟨true, []⟩ [] "web" 2 1 "{}" "{}" "{}"
          createBoom noStopErr).store "web" =
      some { image := "web", min_replicas := 2, max_replicas := 1,
             resources := "{}", env := "{}", ports := "{}" } :=
  C5_amended ⟨true, []⟩ [] "web" 2 1 "{}" "{}" "{}" createBoom noStopErr rfl
